import Mathlib

/-!
Verification of the core of g3logPython (src/g3logPython/g3logPython.h):
a named-handle registry with singleton lifecycle management.

The repository ships a single header.  The class layouts, the `LockedObj`
RAII accessor, the handle classes and the singleton record `sglt_t` are
fully visible there; the bodies of the registry and facade member
functions (`Ptr_Mnger::insert/access/remove`, `Name_Mnger::reserve/...`,
`SinkHndlAccess::new_Sink/new_SinkHndl`, `ifaceLogWorker::get_ifaceLogWorker`,
`sglt_t::initSingleton`) live in a translation unit that is not part of
the header, so those operations are modelled from the specification
(each such definition carries a doc comment saying so).

Machine integers: `sinkkey_t` is `unsigned int`; keys here are `Nat`
(the registry allocates keys sequentially from 1, far from any overflow,
and no operation performs wrapping arithmetic).
-/

namespace G3

/-- Error kinds of the registry and facade layer (spec section 7). -/
inductive SinkErr where
  | InvalidKey
  | UnknownName
  | NameAlreadyExists
  | InstanceLimitExceeded
deriving DecidableEq

deriving instance DecidableEq for Except

/-- The macro `InvalidSinkKey`, defined as 0 in g3logPython.h line 44. -/
def InvalidSinkKey : Nat := 0

/-- The flag `MULT_INSTANCES_ALLOWED = 1` from `enum SINK_HNDL_OPTIONS`, g3logPython.h line 48. -/
def MULT_INSTANCES_ALLOWED : Nat := 1

/-- Model of `std::unique_lock<std::mutex>`: the only observable we need is
whether this lock object currently owns the mutex. -/
structure UniqueLockM where
  owns : Bool
deriving DecidableEq

/-- Model of `LockedObj<Protected_t>` (g3logPython.h lines 55 to 65): a raw
pointer `p_hndl` (an `Option` value, `none` standing for `nullptr`) together
with the RAII lock member `raiiLock`. -/
structure LockedObjM (P : Type) where
  p_hndl : Option P
  raiiLock : UniqueLockM
deriving DecidableEq

/-- The constructor `LockedObj(std::mutex &to_lock): raiiLock(to_lock)
\x7bp_hndl = nullptr;\x7d` (g3logPython.h line 61).  Acquiring a mutex blocks
until it is held, so in this sequential model the post-state of the mutex is
always `true` (locked); the constructed object owns the lock and its exposed
pointer is null.  Returns (post-state of the mutex, constructed object). -/
def LockedObjM.ofMutex (P : Type) : Bool × LockedObjM P :=
  (true, { p_hndl := none, raiiLock := { owns := true } })

/-- The move constructor `LockedObj(LockedObj &&to_move) noexcept:
p_hndl(to_move.p_hndl), raiiLock(std::move(to_move.raiiLock))`
(g3logPython.h line 60).  The destination receives the pointer and the lock
ownership; the moved-from `std::unique_lock` no longer owns the mutex.
Returns (destination, moved-from source). -/
def LockedObjM.move {P : Type} (src : LockedObjM P) : LockedObjM P × LockedObjM P :=
  ({ p_hndl := src.p_hndl, raiiLock := src.raiiLock },
   { p_hndl := src.p_hndl, raiiLock := { owns := false } })

/-- The implicit destructor of `LockedObj`: destroying the member
`std::unique_lock` releases the mutex exactly when the lock object owns it.
Takes the current mutex state and returns the mutex state afterwards. -/
def LockedObjM.destroy {P : Type} (o : LockedObjM P) (mutexLocked : Bool) : Bool :=
  if o.raiiLock.owns then false else mutexLocked

/-- State of `Ptr_Mnger` (g3logPython.h lines 108 to 128): the key sets
`_in_use` and `_free` and the map `_key_to_uniquePtr` (modelled as a
function to `Option`, `none` meaning no entry).  The mutex `_lock` makes
every operation atomic and is not part of the sequential state. -/
structure Ptr_Mnger (R : Type) where
  in_use : Finset Nat
  free : Finset Nat
  key_to_uniquePtr : Nat → Option R

/-- The freshly constructed, empty key registry (`Ptr_Mnger()`). -/
def Ptr_Mnger.empty (R : Type) : Ptr_Mnger R :=
  { in_use := ∅, free := ∅, key_to_uniquePtr := fun _ => none }

/-- Modelled from the spec: the body of `Ptr_Mnger::insert` is not in the
header.  Spec section 4.2: take ownership of the resource; if a retired key
is available reuse the smallest such key, otherwise allocate the next unused
integer (key 0 is reserved as invalid, so allocation starts at 1); mark the
key in-use, store the mapping, return the key. -/
def Ptr_Mnger.insert {R : Type} (s : Ptr_Mnger R) (r : R) : Ptr_Mnger R × Nat :=
  let k := if h : s.free.Nonempty then s.free.min' h
           else if h2 : s.in_use.Nonempty then s.in_use.max' h2 + 1 else 1
  ({ in_use := Insert.insert k s.in_use,
     free := s.free.erase k,
     key_to_uniquePtr := fun x => if x = k then some r else s.key_to_uniquePtr x }, k)

/-- Modelled from the spec: the body of `Ptr_Mnger::access` is not in the
header.  Spec section 4.2: fail with `InvalidKey` if the key is not in-use;
otherwise return an accessor that holds the registry mutex and exposes the
resource mapped to the key.  The accessor is a `LockedObjM` built by the
mutex constructor (null pointer) whose pointer is then set to the resource.
The registry state is returned unchanged (the operation never mutates it). -/
def Ptr_Mnger.access {R : Type} (s : Ptr_Mnger R) (k : Nat) :
    Ptr_Mnger R × Except SinkErr (LockedObjM R) :=
  if k ∈ s.in_use then
    match s.key_to_uniquePtr k with
    | some r =>
        let acc := (LockedObjM.ofMutex R).2
        (s, Except.ok { acc with p_hndl := some r })
    | none => (s, Except.error SinkErr.InvalidKey)
  else (s, Except.error SinkErr.InvalidKey)

/-- Modelled from the spec: the body of `Ptr_Mnger::remove` is not in the
header.  Spec section 4.2: if the key is in-use, destroy the owned resource,
clear the mapping entry and move the key from the in-use set to the free
set; otherwise do nothing (the declared return type is `void`, so the
no-op policy is the one the header admits). -/
def Ptr_Mnger.remove {R : Type} (s : Ptr_Mnger R) (k : Nat) : Ptr_Mnger R :=
  if k ∈ s.in_use then
    { in_use := s.in_use.erase k,
      free := Insert.insert k s.free,
      key_to_uniquePtr := fun x => if x = k then none else s.key_to_uniquePtr x }
  else s

/-- The state invariant of the key registry (spec section 3): the in-use and
free sets are disjoint, and the mapping has an entry exactly at the in-use
keys. -/
def PtrInv {R : Type} (s : Ptr_Mnger R) : Prop :=
  Disjoint s.in_use s.free ∧ ∀ k, (s.key_to_uniquePtr k).isSome ↔ k ∈ s.in_use

/-- Key 0 is reserved as the invalid key (spec section 3): it never appears
in either key set. -/
def KeyPos {R : Type} (s : Ptr_Mnger R) : Prop :=
  InvalidSinkKey ∉ s.in_use ∧ InvalidSinkKey ∉ s.free

/-- State of `Name_Mnger` (g3logPython.h lines 130 to 145): the map
`_name_to_key`, modelled as a function to `Option`. -/
structure Name_Mnger where
  name_to_key : String → Option Nat

/-- The freshly constructed, empty name registry (`Name_Mnger()`). -/
def Name_Mnger.empty : Name_Mnger :=
  { name_to_key := fun _ => none }

/-- Modelled from the spec: the body of `Name_Mnger::reserve` is not in the
header.  Spec section 4.3: return false without modification if the name
already exists; otherwise insert the placeholder `name -> InvalidKey` and
return true.  The header comment on line 134 states the same return
convention. -/
def Name_Mnger.reserve (s : Name_Mnger) (n : String) : Name_Mnger × Bool :=
  match s.name_to_key n with
  | some _ => (s, false)
  | none =>
      ({ name_to_key := fun x => if x = n then some InvalidSinkKey else s.name_to_key x },
       true)

/-- Modelled from the spec: the body of `Name_Mnger::set_key` is not in the
header.  Spec section 4.3: overwrite the placeholder (or any prior value)
for the name; fail with `UnknownName` if the name was never reserved. -/
def Name_Mnger.set_key (s : Name_Mnger) (n : String) (k : Nat) :
    Except SinkErr Name_Mnger :=
  match s.name_to_key n with
  | some _ =>
      Except.ok { name_to_key := fun x => if x = n then some k else s.name_to_key x }
  | none => Except.error SinkErr.UnknownName

/-- Modelled from the spec: the body of `Name_Mnger::get_key` is not in the
header.  Spec section 4.3: fail with `UnknownName` if the name is absent;
otherwise return the current key (which may still be the `InvalidKey`
placeholder). -/
def Name_Mnger.get_key (s : Name_Mnger) (n : String) : Except SinkErr Nat :=
  match s.name_to_key n with
  | some k => Except.ok k
  | none => Except.error SinkErr.UnknownName

/-- Modelled from the spec: the body of `Name_Mnger::remove` is not in the
header.  Spec section 4.3: delete the name entry; no-op if absent. -/
def Name_Mnger.remove (s : Name_Mnger) (n : String) : Name_Mnger :=
  { name_to_key := fun x => if x = n then none else s.name_to_key x }

/-- Model of `cmmnSinkHndl` (g3logPython.h lines 245 to 261): a sink handle
bundles the key with a shared reference `_p_wrkrKeepalive` to the singleton
manager; the model records the key (the shared reference has no sequential
observable beyond existing). -/
structure SnkHndl where
  key : Nat
deriving DecidableEq

/-- State of one `SinkHndlAccess` facade instantiation (g3logPython.h lines
88 to 186): the options bitmask `_options`, the key registry `_g3logPtrs`
and the name registry `_userNames`. -/
structure SinkHndlAccess (R : Type) where
  options : Nat
  g3logPtrs : Ptr_Mnger R
  userNames : Name_Mnger

/-- A freshly constructed facade, `SinkHndlAccess(uint32_t options)`
(g3logPython.h line 150). -/
def SinkHndlAccess.mk0 (R : Type) (options : Nat) : SinkHndlAccess R :=
  { options := options, g3logPtrs := Ptr_Mnger.empty R, userNames := Name_Mnger.empty }

/-- Modelled from the spec: the body of `SinkHndlAccess::new_Sink` is not in
the header.  Spec section 4.4: if the name is non-empty, reserve it in the
name registry (fail with `NameAlreadyExists` if taken); construct the
resource and transfer it into the key registry via `insert`; if a name was
given, finalize it with `set_key`; return a handle with the new key.
The additional instance-limit rejection for single-instance kinds is NOT
included here: the header's own comment on line 203 (`TODO VERY URGENT :
don't allow creation of more than one syslog sink TODO`) records that this
check is not implemented.  See `new_Sink_spec` for the variant with the
check that spec section 4.4 prescribes. -/
def SinkHndlAccess.new_Sink {R : Type} (s : SinkHndlAccess R) (name : String) (r : R) :
    SinkHndlAccess R × Except SinkErr SnkHndl :=
  if name = "" then
    let p := s.g3logPtrs.insert r
    ({ s with g3logPtrs := p.1 }, Except.ok { key := p.2 })
  else
    match s.userNames.reserve name with
    | (_, false) => (s, Except.error SinkErr.NameAlreadyExists)
    | (n1, true) =>
        let p := s.g3logPtrs.insert r
        match n1.set_key name p.2 with
        | Except.ok n2 =>
            ({ s with g3logPtrs := p.1, userNames := n2 }, Except.ok { key := p.2 })
        | Except.error e => (s, Except.error e)

/-- The creation operation exactly as spec section 4.4 words it, including
the clause `if MULT_INSTANCES_ALLOWED is false, the facade must additionally
reject creation when one instance already exists` with error
`InstanceLimitExceeded`.  Stated separately from `new_Sink` to compare the
spec's words with the behaviour the header documents. -/
def SinkHndlAccess.new_Sink_spec {R : Type} (s : SinkHndlAccess R) (name : String) (r : R) :
    SinkHndlAccess R × Except SinkErr SnkHndl :=
  if s.options &&& MULT_INSTANCES_ALLOWED = 0 ∧ s.g3logPtrs.in_use.Nonempty then
    (s, Except.error SinkErr.InstanceLimitExceeded)
  else s.new_Sink name r

/-- Modelled from the spec: the body of `SinkHndlAccess::new_SinkHndl` is
not in the header.  Spec section 4.4: look the name up via the name
registry, failing with `UnknownName` if it is absent or not finalized
(still the `InvalidKey` placeholder), and return a fresh handle wrapping
the existing key. -/
def SinkHndlAccess.new_SinkHndl {R : Type} (s : SinkHndlAccess R) (name : String) :
    Except SinkErr SnkHndl :=
  match s.userNames.get_key name with
  | Except.error e => Except.error e
  | Except.ok k =>
      if k = InvalidSinkKey then Except.error SinkErr.UnknownName
      else Except.ok { key := k }

/-- Model of the singleton record `sglt_t` (g3logPython.h lines 225 to 235):
`inited` stands for the consumed `std::once_flag initInstanceFlag`,
`scopedFlag` for `_scoped`, `keepalive` for the strong `_keepalive` pointer and
`inst` for the weak `_instance` pointer, both carrying the identity (a
serial number) of the instance they reference; `numCreated` counts how many
manager instances were ever constructed. -/
structure SgltState where
  inited : Bool
  scopedFlag : Bool
  keepalive : Option Nat
  inst : Option Nat
  numCreated : Nat
deriving DecidableEq

/-- The process-start singleton state: nothing initialized, no instance. -/
def SgltState.start : SgltState :=
  { inited := false, scopedFlag := false, keepalive := none, inst := none, numCreated := 0 }

/-- Modelled from the spec: the body of `sglt_t::initSingleton` is not in
the header.  Spec section 4.5: construct the single manager instance,
record the scope policy, and retain the internal strong keep-alive
reference exactly when `scope` is false. -/
def SgltState.initSingleton (s : SgltState) (scope : Bool) : SgltState :=
  { inited := true,
    scopedFlag := scope,
    inst := some s.numCreated,
    keepalive := if scope then none else some s.numCreated,
    numCreated := s.numCreated + 1 }

/-- Modelled from the spec: the body of `ifaceLogWorker::get_ifaceLogWorker`
is not in the header.  Spec section 4.5 and the header comment on lines 207
to 210: initialization runs exactly once (`std::call_once` on
`initInstanceFlag`), with the flag of the first call deciding the policy;
every call then returns a shared pointer locked from the weak `_instance`.
Returns (new singleton state, identity of the returned instance). -/
def SgltState.get_ifaceLogWorker (s : SgltState) (scope_lifetime : Bool) :
    SgltState × Option Nat :=
  let s1 := if s.inited then s else s.initSingleton scope_lifetime
  (s1, s1.inst)

/-- The member `sglt_t::kill_keepalive` (g3logPython.h line 234): `_keepalive = nullptr`. -/
def SgltState.kill_keepalive (s : SgltState) : SgltState :=
  { s with keepalive := none }

/-- Runs a sequence of `get_ifaceLogWorker` calls, returning the final
singleton state. -/
def SgltState.runCalls (s : SgltState) (flags : List Bool) : SgltState :=
  flags.foldl (fun t b => (t.get_ifaceLogWorker b).1) s

/-- A small concrete key registry used to witness the registry theorems:
key 1 is in use and mapped to the resource 10, key 2 is retired. -/
def wPtr : Ptr_Mnger Nat :=
  { in_use := {1}, free := {2},
    key_to_uniquePtr := fun x => if x = 1 then some 10 else none }

theorem SgltState.get_ifaceLogWorker_inited (s : SgltState) (h : s.inited = true)
    (b : Bool) : s.get_ifaceLogWorker b = (s, s.inst) := by
  simp [SgltState.get_ifaceLogWorker, h]

theorem SgltState.runCalls_inited (s : SgltState) (h : s.inited = true)
    (flags : List Bool) : s.runCalls flags = s := by
  induction flags with
  | nil => rfl
  | cons b bs ih =>
      simp only [SgltState.runCalls, List.foldl_cons] at ih ⊢
      rw [SgltState.get_ifaceLogWorker_inited s h b, ih]

/-- Claim C1: `get_ifaceLogWorker` constructs at most one manager instance per
process; the `scope_lifetime` flag of the first call fixes the keep-alive
policy (false retains the internal strong keep-alive reference, true omits
it); every subsequent call ignores its flag argument, leaves the state
unchanged and returns the same instance. -/
theorem get_ifaceLogWorker_once (b0 : Bool) (rest : List Bool) :
    ((SgltState.start.get_ifaceLogWorker b0).2 = some 0) ∧
    (((SgltState.start.get_ifaceLogWorker b0).1.runCalls rest).numCreated = 1 ∧
     ((SgltState.start.get_ifaceLogWorker b0).1.runCalls rest).scopedFlag = b0 ∧
     ((SgltState.start.get_ifaceLogWorker b0).1.runCalls rest).keepalive =
       (if b0 then none else some 0)) ∧
    (∀ b : Bool,
      (((SgltState.start.get_ifaceLogWorker b0).1.runCalls rest).get_ifaceLogWorker b).2
          = some 0 ∧
      (((SgltState.start.get_ifaceLogWorker b0).1.runCalls rest).get_ifaceLogWorker b).1
          = ((SgltState.start.get_ifaceLogWorker b0).1.runCalls rest)) := by
  have h1 : (SgltState.start.get_ifaceLogWorker b0).1 =
      { inited := true, scopedFlag := b0, keepalive := if b0 then none else some 0,
        inst := some 0, numCreated := 1 } := by
    simp [SgltState.get_ifaceLogWorker, SgltState.start, SgltState.initSingleton]
  have h2 : ((SgltState.start.get_ifaceLogWorker b0).1.runCalls rest) =
      (SgltState.start.get_ifaceLogWorker b0).1 := by
    apply SgltState.runCalls_inited
    rw [h1]
  refine ⟨?_, ?_, ?_⟩
  · simp [SgltState.get_ifaceLogWorker, SgltState.start, SgltState.initSingleton]
  · rw [h2, h1]
    exact ⟨rfl, rfl, rfl⟩
  · intro b
    rw [h2, h1]
    exact ⟨rfl, rfl⟩

/-- Claim C4: the scoped lock accessor `LockedObj` acquires the mutex at
construction; whenever an accessor owning the lock is destroyed the mutex
is released, regardless of context (every exit path); a move transfers
both the lock ownership and the protected pointer to the destination and
leaves the moved-from source without lock ownership, so destroying the
source afterwards never releases the mutex.  (The copy constructor is
deleted in the header, so the model has no copy operation.) -/
theorem LockedObj_raii_move (P : Type) (src : LockedObjM P) (m : Bool) :
    ((LockedObjM.ofMutex P).1 = true ∧ (LockedObjM.ofMutex P).2.raiiLock.owns = true) ∧
    (∀ o : LockedObjM P, o.raiiLock.owns = true → o.destroy m = false) ∧
    (src.move.1.p_hndl = src.p_hndl ∧ src.move.1.raiiLock = src.raiiLock ∧
      src.move.2.raiiLock.owns = false) ∧
    (src.move.2.destroy m = m) := by
  refine ⟨⟨rfl, rfl⟩, ?_, ⟨rfl, rfl, rfl⟩, ?_⟩
  · intro o h
    simp [LockedObjM.destroy, h]
  · simp [LockedObjM.move, LockedObjM.destroy]

/-- Witness for C4 at a concrete accessor: an owning accessor over `Nat`
releases the mutex on destruction. -/
theorem LockedObj_raii_move_witness :
    ({ p_hndl := some 5, raiiLock := { owns := true } } : LockedObjM Nat).destroy true
      = false :=
  (LockedObj_raii_move Nat { p_hndl := some 5, raiiLock := { owns := true } } true).2.1
    { p_hndl := some 5, raiiLock := { owns := true } } rfl

/-- Claim C10: the `LockedObj(std::mutex&)` constructor leaves the exposed
protected pointer `p_hndl` null; it only becomes non-null when assigned
afterwards. -/
theorem LockedObj_ctor_null (P : Type) :
    ((LockedObjM.ofMutex P).2.p_hndl = none) ∧
    (∀ (o : LockedObjM P) (r : P), ({ o with p_hndl := some r } : LockedObjM P).p_hndl
        = some r) :=
  ⟨rfl, fun _ _ => rfl⟩

/-- Claim C5: `reserve` returns false and leaves the name registry unmodified
when the name is already present; otherwise it records the placeholder
`name -> InvalidSinkKey`, leaves every other name unchanged and returns
true; hence two reservations of the same name with no intervening removal
return true then false. -/
theorem Name_Mnger_reserve_spec (s : Name_Mnger) (n : String) :
    ((s.name_to_key n).isSome → s.reserve n = (s, false)) ∧
    (s.name_to_key n = none →
      (s.reserve n).2 = true ∧
      (s.reserve n).1.name_to_key n = some InvalidSinkKey ∧
      (∀ m, m ≠ n → (s.reserve n).1.name_to_key m = s.name_to_key m) ∧
      ((s.reserve n).1.reserve n).2 = false) := by
  cases h : s.name_to_key n with
  | some k =>
      refine ⟨fun _ => ?_, fun hnone => by simp [h] at hnone⟩
      simp [Name_Mnger.reserve, h]
  | none =>
      refine ⟨fun hsome => by simp [h] at hsome, fun _ => ?_⟩
      refine ⟨by simp [Name_Mnger.reserve, h], by simp [Name_Mnger.reserve, h], ?_, ?_⟩
      · intro m hm
        simp [Name_Mnger.reserve, h, hm]
      · simp [Name_Mnger.reserve, h]

/-- Witness for C5: on the empty name registry, reserving a name twice
returns true then false, and the placeholder is recorded. -/
theorem Name_Mnger_reserve_spec_witness :
    (Name_Mnger.empty.reserve "x").2 = true ∧
    (Name_Mnger.empty.reserve "x").1.name_to_key "x" = some InvalidSinkKey ∧
    ((Name_Mnger.empty.reserve "x").1.reserve "x").2 = false :=
  ⟨((Name_Mnger_reserve_spec Name_Mnger.empty "x").2 rfl).1,
   ((Name_Mnger_reserve_spec Name_Mnger.empty "x").2 rfl).2.1,
   ((Name_Mnger_reserve_spec Name_Mnger.empty "x").2 rfl).2.2.2⟩

/-- Claim C6: `get_key` fails with `UnknownName` exactly when the name is absent,
and otherwise returns the key currently recorded; a name that was reserved
but never finalized yields the invalid-key sentinel `InvalidSinkKey` (0)
rather than an error. -/
theorem Name_Mnger_get_key_spec (s : Name_Mnger) (n : String) :
    (s.name_to_key n = none → s.get_key n = Except.error SinkErr.UnknownName) ∧
    (∀ k, s.name_to_key n = some k → s.get_key n = Except.ok k) ∧
    ((s.reserve n).2 = true → (s.reserve n).1.get_key n = Except.ok InvalidSinkKey) := by
  refine ⟨fun h => by simp [Name_Mnger.get_key, h], fun k h => by simp [Name_Mnger.get_key, h], ?_⟩
  intro hres
  cases h : s.name_to_key n with
  | some k => simp [Name_Mnger.reserve, h] at hres
  | none => simp [Name_Mnger.reserve, Name_Mnger.get_key, h]

/-- Witness for C6: on the empty name registry, a reserved-but-unfinalized
name yields `InvalidSinkKey`, and an unknown name yields `UnknownName`. -/
theorem Name_Mnger_get_key_spec_witness :
    (Name_Mnger.empty.reserve "x").1.get_key "x" = Except.ok InvalidSinkKey ∧
    Name_Mnger.empty.get_key "y" = Except.error SinkErr.UnknownName :=
  ⟨(Name_Mnger_get_key_spec Name_Mnger.empty "x").2.2 rfl,
   (Name_Mnger_get_key_spec Name_Mnger.empty "y").1 rfl⟩

theorem Ptr_Mnger.insert_eq {R : Type} (s : Ptr_Mnger R) (r : R) :
    s.insert r =
      ({ in_use := Insert.insert (s.insert r).2 s.in_use,
         free := s.free.erase (s.insert r).2,
         key_to_uniquePtr :=
           fun x => if x = (s.insert r).2 then some r else s.key_to_uniquePtr x },
       (s.insert r).2) := rfl

theorem Ptr_Mnger.insert_snd {R : Type} (s : Ptr_Mnger R) (r : R) :
    (s.insert r).2 =
      if h : s.free.Nonempty then s.free.min' h
      else if h2 : s.in_use.Nonempty then s.in_use.max' h2 + 1 else 1 := rfl

theorem Ptr_Mnger.insert_key_notin_in_use {R : Type} (s : Ptr_Mnger R) (r : R)
    (hInv : PtrInv s) : (s.insert r).2 ∉ s.in_use := by
  rw [Ptr_Mnger.insert_snd]
  by_cases hf : s.free.Nonempty
  · rw [dif_pos hf]
    exact Finset.disjoint_right.mp hInv.1 (s.free.min'_mem hf)
  · rw [dif_neg hf]
    by_cases hu : s.in_use.Nonempty
    · rw [dif_pos hu]
      intro hmem
      have := s.in_use.le_max' _ hmem
      omega
    · rw [dif_neg hu]
      rw [Finset.not_nonempty_iff_eq_empty] at hu
      simp [hu]

theorem Ptr_Mnger.insert_key_ne_invalid {R : Type} (s : Ptr_Mnger R) (r : R)
    (hPos : KeyPos s) : (s.insert r).2 ≠ InvalidSinkKey := by
  rw [Ptr_Mnger.insert_snd]
  by_cases hf : s.free.Nonempty
  · rw [dif_pos hf]
    intro h0
    exact hPos.2 (h0 ▸ s.free.min'_mem hf)
  · rw [dif_neg hf]
    by_cases hu : s.in_use.Nonempty
    · rw [dif_pos hu]
      simp [InvalidSinkKey]
    · rw [dif_neg hu]
      simp [InvalidSinkKey]

theorem Ptr_Mnger.access_insert_self {R : Type} (t : Ptr_Mnger R) (r : R) :
    ((t.insert r).1.access (t.insert r).2).2 =
      Except.ok { p_hndl := some r, raiiLock := { owns := true } } := by
  rw [Ptr_Mnger.insert_eq]
  simp [Ptr_Mnger.access, LockedObjM.ofMutex]

/-- Claim C2: under the registry invariant, `insert` returns a key that is not
currently in use; when retired keys exist it returns the smallest of them,
and when none exist it returns an integer strictly larger than every key in
use (the next unused integer, starting at 1 on an empty registry); on the
empty registry the sequence insert, remove, insert returns key 1 both
times. -/
theorem Ptr_Mnger_insert_fresh {R : Type} (s : Ptr_Mnger R) (r : R) (hInv : PtrInv s) :
    (s.insert r).2 ∉ s.in_use ∧
    (∀ h : s.free.Nonempty,
      (s.insert r).2 ∈ s.free ∧ ∀ x ∈ s.free, (s.insert r).2 ≤ x) ∧
    (s.free = ∅ → ∀ x ∈ s.in_use, x < (s.insert r).2) ∧
    ((Ptr_Mnger.empty R).insert r).2 = 1 ∧
    ((((Ptr_Mnger.empty R).insert r).1.remove
        ((Ptr_Mnger.empty R).insert r).2).insert r).2 = 1 := by
  refine ⟨Ptr_Mnger.insert_key_notin_in_use s r hInv, ?_, ?_, ?_, ?_⟩
  · intro h
    rw [Ptr_Mnger.insert_snd, dif_pos h]
    exact ⟨s.free.min'_mem h, fun x hx => s.free.min'_le x hx⟩
  · intro hfe x hx
    have hf : ¬ s.free.Nonempty := by simp [hfe]
    have hu : s.in_use.Nonempty := ⟨x, hx⟩
    rw [Ptr_Mnger.insert_snd, dif_neg hf, dif_pos hu]
    exact Nat.lt_succ_of_le (s.in_use.le_max' x hx)
  · rw [Ptr_Mnger.insert_snd]
    simp [Ptr_Mnger.empty]
  · rw [Ptr_Mnger.insert_snd]
    have h1 : ((Ptr_Mnger.empty R).insert r).2 = 1 := by
      rw [Ptr_Mnger.insert_snd]
      simp [Ptr_Mnger.empty]
    rw [Ptr_Mnger.insert_eq, h1]
    simp [Ptr_Mnger.empty, Ptr_Mnger.remove]

/-- Witness for C2 at the concrete registry `wPtr` (key 1 in use, key 2
retired): insert reuses the smallest retired key 2, which is not in use. -/
theorem Ptr_Mnger_insert_fresh_witness :
    (wPtr.insert 99).2 ∉ wPtr.in_use ∧ (wPtr.insert 99).2 ∈ wPtr.free :=
  ⟨(Ptr_Mnger_insert_fresh wPtr 99
      ⟨by decide, fun k => by by_cases hk : k = 1 <;> simp [wPtr, hk]⟩).1,
   ((Ptr_Mnger_insert_fresh wPtr 99
      ⟨by decide, fun k => by by_cases hk : k = 1 <;> simp [wPtr, hk]⟩).2.1
      ⟨2, by simp [wPtr]⟩).1⟩

/-- Claim C3: under the registry invariant, `access` fails with `InvalidKey`
exactly when the key is not in use, and otherwise returns a lock-holding
accessor exposing the resource mapped to the key; after a successful
`remove` the key fails with `InvalidKey`, and once a later `insert` reuses
that key, `access` succeeds again with the newly stored resource. -/
theorem Ptr_Mnger_access_spec {R : Type} (s : Ptr_Mnger R) (k : Nat) (hInv : PtrInv s) :
    ((s.access k).2 = Except.error SinkErr.InvalidKey ↔ k ∉ s.in_use) ∧
    (∀ r, s.key_to_uniquePtr k = some r →
      (s.access k).2 = Except.ok { p_hndl := some r, raiiLock := { owns := true } }) ∧
    (k ∈ s.in_use → ((s.remove k).access k).2 = Except.error SinkErr.InvalidKey) ∧
    (∀ r, ((s.remove k).insert r).2 = k →
      (((s.remove k).insert r).1.access k).2 =
        Except.ok { p_hndl := some r, raiiLock := { owns := true } }) := by
  refine ⟨?_, ?_, ?_, ?_⟩
  · by_cases hk : k ∈ s.in_use
    · obtain ⟨r, hr⟩ := Option.isSome_iff_exists.mp ((hInv.2 k).mpr hk)
      simp [Ptr_Mnger.access, hk, hr, LockedObjM.ofMutex]
    · simp [Ptr_Mnger.access, hk]
  · intro r hr
    have hk : k ∈ s.in_use := (hInv.2 k).mp (by simp [hr])
    simp [Ptr_Mnger.access, hk, hr, LockedObjM.ofMutex]
  · intro hk
    have hnot : k ∉ (s.remove k).in_use := by
      simp [Ptr_Mnger.remove, hk]
    simp [Ptr_Mnger.access, hnot]
  · intro r hkey
    have := Ptr_Mnger.access_insert_self (s.remove k) r
    rwa [hkey] at this

/-- Witness for C3 at the concrete registry `wPtr`: accessing the in-use
key 1 yields the stored resource 10 under the lock, and after removing
key 1 the same access fails with `InvalidKey`. -/
theorem Ptr_Mnger_access_spec_witness :
    (wPtr.access 1).2 = Except.ok { p_hndl := some 10, raiiLock := { owns := true } } ∧
    ((wPtr.remove 1).access 1).2 = Except.error SinkErr.InvalidKey :=
  ⟨(Ptr_Mnger_access_spec wPtr 1
      ⟨by decide, fun k => by by_cases hk : k = 1 <;> simp [wPtr, hk]⟩).2.1 10
      (by simp [wPtr]),
   (Ptr_Mnger_access_spec wPtr 1
      ⟨by decide, fun k => by by_cases hk : k = 1 <;> simp [wPtr, hk]⟩).2.2.1
      (by simp [wPtr])⟩

/-- Claim C9: every key registry operation preserves the state invariant (in-use
and free key sets disjoint, mapping entries exactly at the in-use keys);
`access` never mutates the registry, so the invariant also holds in the
post-state of an operation that returns an error. -/
theorem Ptr_Mnger_ops_preserve_inv {R : Type} (s : Ptr_Mnger R) (r : R) (k : Nat)
    (hInv : PtrInv s) :
    PtrInv (s.insert r).1 ∧ PtrInv (s.remove k) ∧ (s.access k).1 = s ∧
    (∀ e, (s.access k).2 = Except.error e → PtrInv (s.access k).1) := by
  obtain ⟨hd, hm⟩ := hInv
  have haccess : (s.access k).1 = s := by
    by_cases hk : k ∈ s.in_use
    · cases hmk : s.key_to_uniquePtr k <;> simp [Ptr_Mnger.access, hk, hmk]
    · simp [Ptr_Mnger.access, hk]
  refine ⟨?_, ?_, haccess, ?_⟩
  · rw [Ptr_Mnger.insert_eq]
    constructor
    · rw [Finset.disjoint_left]
      intro x hx hx2
      rw [Finset.mem_insert] at hx
      rw [Finset.mem_erase] at hx2
      rcases hx with hx | hx
      · exact hx2.1 hx
      · exact Finset.disjoint_left.mp hd hx hx2.2
    · intro x
      by_cases hx : x = (s.insert r).2
      · simp [hx]
      · simp only [if_neg hx, Finset.mem_insert]
        rw [hm x]
        exact ⟨fun h => Or.inr h, fun h => h.elim (fun h' => absurd h' hx) id⟩
  · unfold Ptr_Mnger.remove
    by_cases hk : k ∈ s.in_use
    · rw [if_pos hk]
      constructor
      · rw [Finset.disjoint_left]
        intro x hx hx2
        rw [Finset.mem_erase] at hx
        rw [Finset.mem_insert] at hx2
        rcases hx2 with hx2 | hx2
        · exact hx.1 hx2
        · exact Finset.disjoint_left.mp hd hx.2 hx2
      · intro x
        by_cases hx : x = k
        · simp [hx]
        · simp only [if_neg hx, Finset.mem_erase]
          rw [hm x]
          exact ⟨fun h => ⟨hx, h⟩, fun h => h.2⟩
    · rw [if_neg hk]
      exact ⟨hd, hm⟩
  · intro e _
    rw [haccess]
    exact ⟨hd, hm⟩

/-- Witness for C9 at the concrete registry `wPtr`: the invariant survives
an insert, and a failing access leaves the state untouched. -/
theorem Ptr_Mnger_ops_preserve_inv_witness :
    PtrInv (wPtr.insert 7).1 ∧ (wPtr.access 3).1 = wPtr :=
  ⟨(Ptr_Mnger_ops_preserve_inv wPtr 7 3
      ⟨by decide, fun k => by by_cases hk : k = 1 <;> simp [wPtr, hk]⟩).1,
   (Ptr_Mnger_ops_preserve_inv wPtr 7 3
      ⟨by decide, fun k => by by_cases hk : k = 1 <;> simp [wPtr, hk]⟩).2.2.1⟩

/-- Claim C8: for a non-empty name not yet taken, `new_Sink` succeeds and returns
a handle carrying the freshly inserted key; a second `new_Sink` under the
same name fails with `NameAlreadyExists`; and `new_SinkHndl` on that name
succeeds, returning a fresh handle whose key equals the key of the handle
from the first creation. -/
theorem SinkHndlAccess_create_then_open {R : Type} (s : SinkHndlAccess R)
    (n : String) (r r2 : R) (hn : n ≠ "")
    (habs : s.userNames.name_to_key n = none) (hPos : KeyPos s.g3logPtrs) :
    (s.new_Sink n r).2 = Except.ok { key := (s.g3logPtrs.insert r).2 } ∧
    ((s.new_Sink n r).1.new_Sink n r2).2 = Except.error SinkErr.NameAlreadyExists ∧
    (s.new_Sink n r).1.new_SinkHndl n = Except.ok { key := (s.g3logPtrs.insert r).2 } := by
  have hk0 := Ptr_Mnger.insert_key_ne_invalid s.g3logPtrs r hPos
  simp only [SinkHndlAccess.new_Sink, if_neg hn, Name_Mnger.reserve, habs,
    Name_Mnger.set_key, SinkHndlAccess.new_SinkHndl, Name_Mnger.get_key]
  simp [hk0]

/-- Witness for C8: on a fresh multi-instance facade over `Nat`, creating a
sink named `a` succeeds with key 1, re-creating it fails with
`NameAlreadyExists`, and opening `a` returns a handle with key 1. -/
theorem SinkHndlAccess_create_then_open_witness :
    ((SinkHndlAccess.mk0 Nat MULT_INSTANCES_ALLOWED).new_Sink "a" 5).2
        = Except.ok { key := 1 } ∧
    (((SinkHndlAccess.mk0 Nat MULT_INSTANCES_ALLOWED).new_Sink "a" 5).1.new_Sink
        "a" 6).2 = Except.error SinkErr.NameAlreadyExists ∧
    ((SinkHndlAccess.mk0 Nat MULT_INSTANCES_ALLOWED).new_Sink "a" 5).1.new_SinkHndl
        "a" = Except.ok { key := 1 } := by
  have h := SinkHndlAccess_create_then_open
    (SinkHndlAccess.mk0 Nat MULT_INSTANCES_ALLOWED) "a" 5 6
    (by decide) rfl ⟨by decide, by decide⟩
  have hkey : ((SinkHndlAccess.mk0 Nat MULT_INSTANCES_ALLOWED).g3logPtrs.insert 5).2 = 1 := by
    decide
  rw [hkey] at h
  exact h

/-- Claim C7: the syslog facade is constructed with options 0 (no
`MULT_INSTANCES_ALLOWED` bit), yet creating a second sink while one exists
succeeds: the instance-limit check is absent from the implementation, as
the header's own `TODO VERY URGENT` comment on line 203 records.  The
variant `new_Sink_spec`, which follows the spec's words, rejects the same
call with `InstanceLimitExceeded`. -/
theorem second_syslog_sink_not_rejected :
    ((((SinkHndlAccess.mk0 Nat 0).new_Sink "s1" 11).1.new_Sink "s2" 12).2
        = Except.ok { key := 2 }) ∧
    ((((SinkHndlAccess.mk0 Nat 0).new_Sink "s1" 11).1.new_Sink_spec "s2" 12).2
        = Except.error SinkErr.InstanceLimitExceeded) := by
  constructor
  · decide
  · decide

end G3
